import Mathlib

/-!
Shallow embedding of the SolarSize Nigeria prototype
(`src/solar_app_prototype.py`) and proofs about its core calculations.

Numbers are modelled as exact rationals (`ℚ`): every numeric literal in the
source (`0.85`, `5.0`, prices, irradiance values) is an exact decimal, so the
rational model matches the arithmetic the formulas denote.  Python's raising
division is modelled by `pyDiv`, returning `Except PyError ℚ`; the plain
embeddings use total `ℚ` division and are related to the checked ones by
theorems below.
-/

namespace SolarApp

/-- One working-set appliance entry: the dict
`{'power': …, 'hours': …, 'quantity': …, 'priority': …}` kept in
`st.session_state.appliances_data`. -/
structure ApplianceEntry where
  power : ℚ
  hours : ℚ
  quantity : ℚ
  priority : String
deriving DecidableEq

/-- The working set `appliances_data`: a mapping keyed by appliance name,
modelled as an association list in insertion order. -/
abbrev ApplianceMap := List (String × ApplianceEntry)

/-- Association-list lookup, modelling Python `dict.get` (keys are unique in a
dict, so first-match lookup agrees with it). -/
def assocLookup {α : Type} : List (String × α) → String → Option α
  | [], _ => none
  | (k, v) :: t, key => if key = k then some v else assocLookup t key

/-- `NIGERIAN_CITIES`: city → average solar irradiance (kWh/m²/day). -/
def NIGERIAN_CITIES : List (String × ℚ) :=
  [("Lagos", 4.5), ("Abuja", 5.2), ("Kano", 5.8), ("Ibadan", 4.8),
   ("Port Harcourt", 4.2), ("Kaduna", 5.5), ("Benin City", 4.4),
   ("Jos", 5.7), ("Ilorin", 5.1), ("Maiduguri", 6.0)]

/-- One catalog entry of `SOLAR_PANELS`. -/
structure PanelSpec where
  watts : ℚ
  price : ℚ
  efficiency : ℚ
  warranty : ℚ
deriving DecidableEq

/-- `SOLAR_PANELS`: the static panel catalog. -/
def SOLAR_PANELS : List (String × PanelSpec) :=
  [("Monocrystalline 300W", ⟨300, 85000, 20, 25⟩),
   ("Monocrystalline 400W", ⟨400, 110000, 21, 25⟩),
   ("Monocrystalline 500W", ⟨500, 135000, 22, 25⟩),
   ("Polycrystalline 300W", ⟨300, 75000, 17, 20⟩),
   ("Polycrystalline 400W", ⟨400, 95000, 18, 20⟩)]

/-- One vendor record of the `VENDORS` table. -/
structure Vendor where
  name : String
  rating : ℚ
  phone : String
  speciality : String
deriving DecidableEq

/-- `VENDORS`: city → list of vendor records, in table order. -/
def VENDORS : List (String × List Vendor) :=
  [("Lagos",
    [⟨"SolarMax Nigeria", 4.5, "08012345678", "Residential"⟩,
     ⟨"GreenTech Solar", 4.2, "08087654321", "Commercial"⟩,
     ⟨"PowerGen Solutions", 4.7, "08011223344", "Hybrid Systems"⟩]),
   ("Abuja",
    [⟨"Capital Solar", 4.6, "08055667788", "Residential"⟩,
     ⟨"Federal Solar Co.", 4.3, "08099887766", "Government Projects"⟩,
     ⟨"Sunrise Energy", 4.4, "08033445566", "Off-grid Systems"⟩]),
   ("Kano",
    [⟨"Northern Solar", 4.1, "08077889900", "Agricultural"⟩,
     ⟨"Sahel Power", 4.5, "08044556677", "Residential"⟩])]

/-- Loop body of `calculate_daily_consumption`: for an entry with
`quantity > 0`, add `watts = power * quantity` to `total_watts` and
`(watts * hours) / 1000` to `total_kwh`; otherwise skip the entry. -/
def cdcStep (acc : ℚ × ℚ) (e : String × ApplianceEntry) : ℚ × ℚ :=
  if 0 < e.2.quantity then
    (acc.1 + e.2.power * e.2.quantity,
     acc.2 + e.2.power * e.2.quantity * e.2.hours / 1000)
  else acc

/-- `calculate_daily_consumption(appliances_data)`: fold the loop body over
the working set starting from `total_watts = 0`, `total_kwh = 0`. -/
def calculate_daily_consumption (appliances_data : ApplianceMap) : ℚ × ℚ :=
  appliances_data.foldl cdcStep (0, 0)

/-- `NIGERIAN_CITIES.get(location, 5.0)`: irradiance of a known city, else
the default 5.0. -/
def getIrradiance (location : String) : ℚ :=
  (assocLookup NIGERIAN_CITIES location).getD 5.0

/-- `calculate_solar_system(daily_kwh, location, autonomy_days)`: returns
`(required_solar_kwp, battery_kwh, solar_irradiance)` with
`required_solar_kwp = daily_kwh / (solar_irradiance * 0.85)` and
`battery_kwh = daily_kwh * autonomy_days`. -/
def calculate_solar_system (daily_kwh : ℚ) (location : String)
    (autonomy_days : ℚ) : ℚ × ℚ × ℚ :=
  let solar_irradiance := getIrradiance location
  let system_efficiency : ℚ := 0.85
  let required_solar_kwp := daily_kwh / (solar_irradiance * system_efficiency)
  let battery_kwh := daily_kwh * autonomy_days
  (required_solar_kwp, battery_kwh, solar_irradiance)

/-- Errors a Python-level computation can raise.  `zeroDivisionError` is what
an unguarded `x / 0.0` raises; `invalidInput` is the error class the design
document asks for and that the source never produces. -/
inductive PyError where
  | zeroDivisionError
  | invalidInput
deriving DecidableEq

/-- Python division on floats-as-rationals: raises `ZeroDivisionError` on a
zero divisor, otherwise returns the exact quotient. -/
def pyDiv (a b : ℚ) : Except PyError ℚ :=
  if b = 0 then Except.error PyError.zeroDivisionError else Except.ok (a / b)

/-- `calculate_solar_system` with its division modelled as raising: the
function body performs no validation, so a zero divisor would surface as a
`ZeroDivisionError`. -/
def calculate_solar_system_checked (daily_kwh : ℚ) (location : String)
    (autonomy_days : ℚ) : Except PyError (ℚ × ℚ × ℚ) :=
  let solar_irradiance := getIrradiance location
  match pyDiv daily_kwh (solar_irradiance * 0.85) with
  | Except.error e => Except.error e
  | Except.ok required_solar_kwp =>
      Except.ok (required_solar_kwp, daily_kwh * autonomy_days, solar_irradiance)

/-- Python `round` (banker's rounding, half to even) on a rational. -/
def pyRoundHalfEven (q : ℚ) : ℤ :=
  let f := Int.floor q
  let r := q - f
  if r < 1 / 2 then f
  else if 1 / 2 < r then f + 1
  else if f % 2 = 0 then f else f + 1

/-- `round(q, 2)`. -/
def round2 (q : ℚ) : ℚ := (pyRoundHalfEven (q * 100) : ℚ) / 100

/-- One row appended by `recommend_panels` (the formatted cost string is kept
as the underlying number; formatting is presentation only). -/
structure PanelRow where
  panelType : String
  numPanels : ℤ
  totalCapacity : ℚ
  totalCost : ℚ
  costPerWatt : ℚ
  efficiency : ℚ
  warranty : ℚ
deriving DecidableEq

/-- Loop body of `recommend_panels` for one catalog entry:
`panel_kw = watts / 1000`, `num_panels = int(np.ceil(required_kwp / panel_kw))`
(equal to the mathematical ceiling, since `int` truncation of the
integer-valued `np.ceil` result is exact), `total_capacity` and cost-per-watt
rounded to 2 decimals as in the source. -/
def recommendPanelRow (panel_name : String) (p : PanelSpec)
    (required_kwp : ℚ) : PanelRow :=
  let panel_kw := p.watts / 1000
  let num_panels : ℤ := Int.ceil (required_kwp / panel_kw)
  let total_capacity := (num_panels : ℚ) * panel_kw
  let total_cost := (num_panels : ℚ) * p.price
  ⟨panel_name, num_panels, round2 total_capacity, total_cost,
   round2 (p.price / p.watts), p.efficiency, p.warranty⟩

/-- `recommend_panels(required_kwp)`: one row per catalog entry, in catalog
order. -/
def recommendPanels (required_kwp : ℚ) : List PanelRow :=
  SOLAR_PANELS.map (fun e => recommendPanelRow e.1 e.2 required_kwp)

/-- Loop body of `recommend_panels` with its two divisions modelled as
raising: `required_kwp / panel_kw` is evaluated first, then
`price / watts`.  No guard precedes either division in the source. -/
def recommendPanelRowChecked (panel_name : String) (p : PanelSpec)
    (required_kwp : ℚ) : Except PyError PanelRow :=
  let panel_kw := p.watts / 1000
  match pyDiv required_kwp panel_kw with
  | Except.error e => Except.error e
  | Except.ok ratio =>
      match pyDiv p.price p.watts with
      | Except.error e => Except.error e
      | Except.ok cpw =>
          let num_panels : ℤ := Int.ceil ratio
          Except.ok ⟨panel_name, num_panels,
            round2 ((num_panels : ℚ) * panel_kw), (num_panels : ℚ) * p.price,
            round2 cpw, p.efficiency, p.warranty⟩

/-- `recommend_panels` over a catalog with raising divisions: stops at the
first error, exactly as the Python loop would. -/
def recommendRowsChecked : List (String × PanelSpec) → ℚ →
    Except PyError (List PanelRow)
  | [], _ => Except.ok []
  | e :: t, r =>
      match recommendPanelRowChecked e.1 e.2 r with
      | Except.error err => Except.error err
      | Except.ok row =>
          match recommendRowsChecked t r with
          | Except.error err => Except.error err
          | Except.ok rows => Except.ok (row :: rows)

/-- `recommend_panels` on the actual catalog, raising divisions modelled. -/
def recommendPanelsChecked (required_kwp : ℚ) : Except PyError (List PanelRow) :=
  recommendRowsChecked SOLAR_PANELS required_kwp

/-! ## Load Optimization page (scenario loop) -/

/-- The fixed `scenarios` dict of the Load Optimization page. -/
def scenarioDefs : List (String × List String) :=
  [("Essential Only (High Priority)", ["High"]),
   ("Essential + Important (High + Medium)", ["High", "Medium"]),
   ("All Appliances", ["High", "Medium", "Low"])]

/-- `scenario_appliances`: entries whose priority is in the scenario's list,
with positive quantity, and not marked "Remove". -/
def scenarioFilter (app : ApplianceMap) (priorities : List String) :
    ApplianceMap :=
  app.filter fun e =>
    decide (e.2.priority ∈ priorities ∧ 0 < e.2.quantity ∧
      e.2.priority ≠ "Remove")

/-- One row of the optimizer's `results` table.  `withinBudget` models the
`"✅"` / `"❌"` string; money fields keep the number under the formatting. -/
structure ScenarioRow where
  scenario : String
  dailyKwh : ℚ
  solarKwp : ℚ
  estCost : ℚ
  withinBudget : Bool
  monthlySavings : ℚ
deriving DecidableEq

/-- Body of the optimizer loop for one scenario: skip it when the filtered
working set is empty, else run consumption and sizing (reference location
"Lagos", default autonomy 2) and apply the flat cost formula. -/
def evalScenario (app : ApplianceMap) (max_budget : ℚ)
    (scenario_name : String) (priorities : List String) : Option ScenarioRow :=
  let scenario_appliances := scenarioFilter app priorities
  if scenario_appliances = [] then none
  else
    let total_kwh := (calculate_daily_consumption scenario_appliances).2
    let sys := calculate_solar_system total_kwh ("Lagos") 2
    let required_kwp := sys.1
    let battery_kwh := sys.2.1
    let panel_cost := required_kwp * 300000
    let inverter_cost := required_kwp * 200000
    let battery_cost := battery_kwh * 150000
    let installation_cost := panel_cost * 0.3
    let total_cost := panel_cost + inverter_cost + battery_cost + installation_cost
    some ⟨scenario_name, round2 total_kwh, round2 required_kwp, total_cost,
      decide (total_cost ≤ max_budget), total_kwh * 30 * 100⟩

/-- The optimizer's `results` list: the three scenarios in order, skipping
the ones with an empty appliance subset. -/
def buildResults (app : ApplianceMap) (max_budget : ℚ) : List ScenarioRow :=
  scenarioDefs.filterMap fun s => evalScenario app max_budget s.1 s.2

/-- `affordable_scenarios`: the rows marked within budget. -/
def affordableScenarios (results : List ScenarioRow) : List ScenarioRow :=
  results.filter fun r => r.withinBudget

/-- Python `max(l, key=key)` on a nonempty list: scan left to right, replace
the current best only on a strictly larger key (so the first of several
maxima is kept). -/
def pyMaxBy {α : Type} (key : α → ℚ) : List α → Option α
  | [] => none
  | x :: xs =>
      some (xs.foldl (fun acc y => if key acc < key y then y else acc) x)

/-- `best_scenario = max(affordable_scenarios, key=lambda x: x['Daily kWh'])`,
producing `none` when no scenario fits (the source only evaluates it under
`if affordable_scenarios:`). -/
def bestScenario (app : ApplianceMap) (max_budget : ℚ) : Option ScenarioRow :=
  pyMaxBy (fun r => r.dailyKwh)
    (affordableScenarios (buildResults app max_budget))

/-! ## Find Vendors page -/

/-- `VENDORS.get(selected_city, [])` followed by the display loop's filter
`service_type == "All" or vendor['speciality'] == service_type`, preserving
table order. -/
def vendorLookup (selected_city : String) (service_type : String) :
    List Vendor :=
  let city_vendors := (assocLookup VENDORS selected_city).getD []
  city_vendors.filter fun v =>
    decide (service_type = "All" ∨ v.speciality = service_type)

/-! ## Specification-side closed forms -/

/-- The entries with positive quantity: the ones the loop in
`calculate_daily_consumption` actually accumulates. -/
def activeEntries (l : ApplianceMap) : ApplianceMap :=
  l.filter fun e => decide (0 < e.2.quantity)

/-- Σ power × quantity over a list of entries. -/
def wattsSum (l : ApplianceMap) : ℚ :=
  (l.map fun e => e.2.power * e.2.quantity).sum

/-- Σ power × quantity × hours / 1000 over a list of entries. -/
def kwhSum (l : ApplianceMap) : ℚ :=
  (l.map fun e => e.2.power * e.2.quantity * e.2.hours / 1000).sum

/-- `total_kwh` of one optimizer scenario: consumption of the scenario's
filtered working set. -/
def scenarioDailyKwh (app : ApplianceMap) (priorities : List String) : ℚ :=
  (calculate_daily_consumption (scenarioFilter app priorities)).2

/-- `required_kwp` of one optimizer scenario (reference location "Lagos",
default autonomy 2, as in the source). -/
def scenarioRequiredKwp (app : ApplianceMap) (priorities : List String) : ℚ :=
  (calculate_solar_system (scenarioDailyKwh app priorities) ("Lagos") 2).1

/-- `battery_kwh` of one optimizer scenario. -/
def scenarioBatteryKwh (app : ApplianceMap) (priorities : List String) : ℚ :=
  (calculate_solar_system (scenarioDailyKwh app priorities) ("Lagos") 2).2.1

/-! ## Helper lemmas -/

lemma assocLookup_eq_none {α : Type} (l : List (String × α)) (k : String)
    (h : k ∉ l.map Prod.fst) : assocLookup l k = none := by
  induction l with
  | nil => rfl
  | cons e t ih =>
    simp only [List.map_cons, List.mem_cons] at h
    push_neg at h
    simp only [assocLookup, if_neg h.1]
    exact ih h.2

lemma assocLookup_mem_values {α : Type} (l : List (String × α)) (k : String)
    (v : α) (h : assocLookup l k = some v) : v ∈ l.map Prod.snd := by
  induction l with
  | nil => exact absurd h (by simp [assocLookup])
  | cons e t ih =>
    rw [assocLookup] at h
    by_cases hk : k = e.1
    · rw [if_pos hk] at h
      simp [← Option.some.injEq _ _ |>.mp h]
    · rw [if_neg hk] at h
      simp [ih h]

lemma getIrradiance_cases (location : String) :
    getIrradiance location ∈ NIGERIAN_CITIES.map Prod.snd ∨
      getIrradiance location = 5 := by
  rw [getIrradiance]
  cases h : assocLookup NIGERIAN_CITIES location with
  | none => right; norm_num
  | some v => left; simpa using assocLookup_mem_values _ _ _ h

lemma city_irradiance_bounds :
    ∀ v ∈ NIGERIAN_CITIES.map Prod.snd, (4.2 : ℚ) ≤ v ∧ v ≤ 6.0 := by
  intro v hv
  fin_cases hv <;> norm_num

lemma getIrradiance_pos (location : String) : 0 < getIrradiance location := by
  rcases getIrradiance_cases location with h | h
  · have := city_irradiance_bounds _ h
    linarith [this.1]
  · rw [h]; norm_num

/-- The sizing division never raises: the irradiance is always positive, so
its checked form always succeeds with the plain result. -/
lemma calculate_solar_system_checked_ok (daily_kwh : ℚ) (location : String)
    (autonomy_days : ℚ) :
    calculate_solar_system_checked daily_kwh location autonomy_days =
      Except.ok (calculate_solar_system daily_kwh location autonomy_days) := by
  have hpos : (0 : ℚ) < getIrradiance location * 0.85 := by
    have := getIrradiance_pos location
    positivity
  rw [calculate_solar_system_checked, calculate_solar_system, pyDiv,
    if_neg hpos.ne']

lemma cdc_foldl (l : ApplianceMap) : ∀ a b : ℚ,
    l.foldl cdcStep (a, b) =
      (a + wattsSum (activeEntries l), b + kwhSum (activeEntries l)) := by
  induction l with
  | nil =>
    intro a b
    simp [activeEntries, wattsSum, kwhSum]
  | cons e t ih =>
    intro a b
    rw [List.foldl_cons]
    by_cases h : 0 < e.2.quantity
    · rw [show cdcStep (a, b) e =
          (a + e.2.power * e.2.quantity,
           b + e.2.power * e.2.quantity * e.2.hours / 1000) from by
        simp [cdcStep, h]]
      rw [ih]
      simp only [activeEntries, List.filter_cons, decide_eq_true_eq, if_pos h,
        wattsSum, kwhSum, List.map_cons, List.sum_cons]
      rw [Prod.mk.injEq]
      constructor <;> ring
    · rw [show cdcStep (a, b) e = (a, b) from by simp [cdcStep, h]]
      rw [ih]
      simp only [activeEntries, List.filter_cons, decide_eq_true_eq, if_neg h]

lemma cdc_eq_sums (l : ApplianceMap) :
    calculate_daily_consumption l =
      (wattsSum (activeEntries l), kwhSum (activeEntries l)) := by
  rw [calculate_daily_consumption, cdc_foldl]
  simp

lemma kwhSum_filter_mono (l : ApplianceMap)
    (p q : (String × ApplianceEntry) → Bool)
    (himp : ∀ e, p e = true → q e = true)
    (hnn : ∀ e ∈ l, 0 ≤ e.2.power * e.2.quantity * e.2.hours / 1000) :
    kwhSum (l.filter p) ≤ kwhSum (l.filter q) := by
  induction l with
  | nil => simp [kwhSum]
  | cons e t ih =>
    have hnt : ∀ x ∈ t, 0 ≤ x.2.power * x.2.quantity * x.2.hours / 1000 :=
      fun x hx => hnn x (List.mem_cons_of_mem e hx)
    have ih' := ih hnt
    by_cases hp : p e = true
    · have hq := himp e hp
      simp only [List.filter_cons, hp, hq, if_pos, kwhSum, List.map_cons,
        List.sum_cons]
      exact add_le_add_left ih' _
    · by_cases hq : q e = true
      · simp only [List.filter_cons, hp, hq, if_pos, if_neg, Bool.false_eq_true,
          not_false_eq_true, kwhSum, List.map_cons, List.sum_cons]
        have := hnn e (List.mem_cons_self e t)
        calc kwhSum (t.filter p) ≤ kwhSum (t.filter q) := ih'
          _ ≤ e.2.power * e.2.quantity * e.2.hours / 1000 +
              kwhSum (t.filter q) := le_add_of_nonneg_left this
      · simp only [List.filter_cons, hp, hq, Bool.false_eq_true, if_neg,
          not_false_eq_true]
        exact ih'

lemma pyMax_foldl_spec {α : Type} (key : α → ℚ) (l : List α) : ∀ x : α,
    (l.foldl (fun acc y => if key acc < key y then y else acc) x = x ∨
     l.foldl (fun acc y => if key acc < key y then y else acc) x ∈ l)
    ∧ key x ≤ key (l.foldl (fun acc y => if key acc < key y then y else acc) x)
    ∧ ∀ y ∈ l,
        key y ≤ key (l.foldl (fun acc y => if key acc < key y then y else acc) x) := by
  induction l with
  | nil => intro x; simp
  | cons z t ih =>
    intro x
    rw [List.foldl_cons]
    obtain ⟨hmem, hle, hall⟩ := ih (if key x < key z then z else x)
    have hx : key x ≤ key (if key x < key z then z else x) := by
      by_cases hc : key x < key z
      · rw [if_pos hc]; exact le_of_lt hc
      · rw [if_neg hc]
    have hz : key z ≤ key (if key x < key z then z else x) := by
      by_cases hc : key x < key z
      · rw [if_pos hc]
      · rw [if_neg hc]; exact le_of_not_lt hc
    refine ⟨?_, le_trans hx hle, ?_⟩
    · rcases hmem with h | h
      · rw [h]
        by_cases hc : key x < key z
        · rw [if_pos hc]; right; exact List.mem_cons_self z t
        · rw [if_neg hc]; left; rfl
      · right; exact List.mem_cons_of_mem z h
    · intro y hy
      rcases List.mem_cons.mp hy with h | h
      · rw [h]; exact le_trans hz hle
      · exact hall y h

/-! ## Claim theorems -/

/-- C1: for every appliance mapping, `calculate_daily_consumption` returns
`total_watts` = Σ power × quantity and `total_daily_kwh` =
Σ power × quantity × hours / 1000, both taken over exactly the entries with
quantity > 0; in particular one entry with power 150, hours 24, quantity 1
yields (150, 3.6). -/
theorem calculate_daily_consumption_spec :
    (∀ appliances_data : ApplianceMap,
      calculate_daily_consumption appliances_data =
        (wattsSum (activeEntries appliances_data),
         kwhSum (activeEntries appliances_data)))
    ∧ calculate_daily_consumption
        [(("Refrigerator (Energy Efficient)"), ⟨150, 24, 1, ("High")⟩)] =
      (150, 3.6) := by
  refine ⟨cdc_eq_sums, ?_⟩
  norm_num [calculate_daily_consumption, cdcStep]

/-- C2: for daily_kwh ≥ 0, a location with positive irradiance and
autonomy_days ≥ 1, `calculate_solar_system` returns
required_kwp = daily_kwh / (irradiance × 0.85) and
battery_kwh = daily_kwh × autonomy_days, both non-negative; its division
never fails (the checked form returns `ok`), and the concrete case
daily_kwh = 10 with default irradiance 5.0 and autonomy 2 yields
required_kwp = 40/17 (≈ 2.3529) and battery_kwh = 20. -/
theorem calculate_solar_system_spec (daily_kwh : ℚ) (location : String)
    (autonomy_days : ℚ) (hd : 0 ≤ daily_kwh)
    (hirr : 0 < getIrradiance location) (ha : 1 ≤ autonomy_days) :
    calculate_solar_system daily_kwh location autonomy_days =
      (daily_kwh / (getIrradiance location * 0.85),
       daily_kwh * autonomy_days, getIrradiance location)
    ∧ 0 ≤ (calculate_solar_system daily_kwh location autonomy_days).1
    ∧ 0 ≤ (calculate_solar_system daily_kwh location autonomy_days).2.1
    ∧ calculate_solar_system_checked daily_kwh location autonomy_days =
        Except.ok (calculate_solar_system daily_kwh location autonomy_days)
    ∧ calculate_solar_system 10 ("Nsukka") 2 = (40 / 17, 20, 5) := by
  refine ⟨rfl, ?_, ?_, calculate_solar_system_checked_ok _ _ _, ?_⟩
  · show 0 ≤ daily_kwh / (getIrradiance location * 0.85)
    have : (0 : ℚ) < getIrradiance location * 0.85 := by positivity
    positivity
  · show 0 ≤ daily_kwh * autonomy_days
    exact mul_nonneg hd (le_trans zero_le_one ha)
  · rw [calculate_solar_system, getIrradiance,
      assocLookup_eq_none _ _ (by decide)]
    norm_num

/-- Witness for C2 at daily_kwh = 10, the unknown location "Nsukka"
(irradiance defaults to 5 > 0) and autonomy_days = 2. -/
theorem calculate_solar_system_spec_witness :
    (0 ≤ (10 : ℚ) ∧ 0 < getIrradiance ("Nsukka") ∧ 1 ≤ (2 : ℚ))
    ∧ calculate_solar_system 10 ("Nsukka") 2 = (40 / 17, 20, 5) := by
  have hirr : 0 < getIrradiance ("Nsukka") := by
    rw [getIrradiance, assocLookup_eq_none _ _ (by decide)]
    norm_num
  exact ⟨⟨by norm_num, hirr, by norm_num⟩,
    (calculate_solar_system_spec 10 ("Nsukka") 2 (by norm_num) hirr
      (by norm_num)).2.2.2.2⟩

/-- C3: for required_kwp ≥ 0 and a panel with positive wattage, the panel
count is the ceiling of required_kwp / (watts/1000); hence the recommended
capacity never under-provisions, the count is the least integer with that
property, and it is at least 1 whenever required_kwp > 0.  Concretely,
required_kwp = 2 with a 400 W panel gives 5 panels and 2.0 kW capacity. -/
theorem recommend_panels_ceiling (panel_name : String) (p : PanelSpec)
    (required_kwp : ℚ) (hr : 0 ≤ required_kwp) (hw : 0 < p.watts) :
    (recommendPanelRow panel_name p required_kwp).numPanels =
      Int.ceil (required_kwp / (p.watts / 1000))
    ∧ required_kwp ≤
        ((recommendPanelRow panel_name p required_kwp).numPanels : ℚ) *
          (p.watts / 1000)
    ∧ (∀ n : ℤ, required_kwp ≤ (n : ℚ) * (p.watts / 1000) →
        (recommendPanelRow panel_name p required_kwp).numPanels ≤ n)
    ∧ (0 < required_kwp →
        1 ≤ (recommendPanelRow panel_name p required_kwp).numPanels)
    ∧ (recommendPanelRow ("Polycrystalline 400W") ⟨400, 95000, 18, 20⟩
        2).numPanels = 5
    ∧ (recommendPanelRow ("Polycrystalline 400W") ⟨400, 95000, 18, 20⟩
        2).totalCapacity = 2 := by
  have hunit : (0 : ℚ) < p.watts / 1000 := by positivity
  refine ⟨rfl, ?_, ?_, ?_, ?_, ?_⟩
  · show required_kwp ≤ (Int.ceil (required_kwp / (p.watts / 1000)) : ℚ) *
      (p.watts / 1000)
    exact (div_le_iff₀ hunit).mp (Int.le_ceil _)
  · intro n hn
    show Int.ceil (required_kwp / (p.watts / 1000)) ≤ n
    exact Int.ceil_le.mpr ((div_le_iff₀ hunit).mpr hn)
  · intro hpos
    show 1 ≤ Int.ceil (required_kwp / (p.watts / 1000))
    exact Int.ceil_pos.mpr (div_pos hpos hunit)
  · norm_num [recommendPanelRow]
  · norm_num [recommendPanelRow, round2, pyRoundHalfEven]

/-- Witness for C3 at required_kwp = 2 and the 400 W polycrystalline panel. -/
theorem recommend_panels_ceiling_witness :
    (0 ≤ (2 : ℚ) ∧ 0 < (⟨400, 95000, 18, 20⟩ : PanelSpec).watts)
    ∧ (recommendPanelRow ("Polycrystalline 400W") ⟨400, 95000, 18, 20⟩
        2).numPanels = 5 := by
  refine ⟨⟨by norm_num, by norm_num⟩, ?_⟩
  exact (recommend_panels_ceiling ("Polycrystalline 400W") ⟨400, 95000, 18, 20⟩
    2 (by norm_num) (by norm_num)).2.2.2.2.1

/-- C4 counterexample: the code contains no explicit guard and no InvalidInput
error path.  On a zero-wattage panel the recommendation loop's division
raises a bare `ZeroDivisionError`, which is not an InvalidInput report. -/
theorem zero_wattage_not_reported_invalid_input :
    recommendPanelRowChecked ("Zero Watt Panel") ⟨0, 1000, 10, 10⟩ 1 =
      Except.error PyError.zeroDivisionError
    ∧ Except.error PyError.zeroDivisionError ≠
        (Except.error PyError.invalidInput : Except PyError PanelRow) := by
  constructor
  · norm_num [recommendPanelRowChecked, pyDiv]
  · intro h
    exact absurd (Except.error.injEq _ _ ▸ h) (by simp)

/-- C4 amended: neither core function validates its inputs or raises an
InvalidInput error; instead, with the program's fixed tables no division can
fail — the irradiance lookup always yields a positive value and every catalog
wattage is positive — so every call returns a finite rational result (the
checked embeddings always succeed with the plain results). -/
theorem no_division_failures (daily_kwh autonomy_days required_kwp : ℚ)
    (location : String) :
    calculate_solar_system_checked daily_kwh location autonomy_days =
      Except.ok (calculate_solar_system daily_kwh location autonomy_days)
    ∧ recommendPanelsChecked required_kwp =
        Except.ok (recommendPanels required_kwp) := by
  refine ⟨calculate_solar_system_checked_ok _ _ _, ?_⟩
  norm_num [recommendPanelsChecked, recommendRowsChecked,
    recommendPanelRowChecked, recommendPanels, recommendPanelRow,
    SOLAR_PANELS, pyDiv]

/-- C8: an unknown location does not make `calculate_solar_system` fail: the
irradiance falls back to the default 5.0, which is returned as
`irradiance_used`, and the results use it in the standard formulas. -/
theorem unknown_location_defaults (daily_kwh autonomy_days : ℚ)
    (location : String) (h : location ∉ NIGERIAN_CITIES.map Prod.fst) :
    calculate_solar_system daily_kwh location autonomy_days =
      (daily_kwh / (5 * 0.85), daily_kwh * autonomy_days, 5)
    ∧ calculate_solar_system_checked daily_kwh location autonomy_days =
        Except.ok (daily_kwh / (5 * 0.85), daily_kwh * autonomy_days, 5) := by
  have hirr : getIrradiance location = 5 := by
    rw [getIrradiance, assocLookup_eq_none _ _ h]
    norm_num
  constructor
  · rw [calculate_solar_system, hirr]
  · rw [calculate_solar_system_checked_ok, calculate_solar_system, hirr]

/-- Witness for C8 at the unknown location "Nsukka". -/
theorem unknown_location_defaults_witness :
    ("Nsukka" ∉ NIGERIAN_CITIES.map Prod.fst)
    ∧ calculate_solar_system 10 ("Nsukka") 2 = (10 / (5 * 0.85), 10 * 2, 5) :=
  ⟨by decide, (unknown_location_defaults 10 2 ("Nsukka") (by decide)).1⟩

/-- C9: the vendor lookup returns exactly the stored vendors of the selected
city whose speciality matches the filter (everything when the filter is
"All"), as a sublist of the stored city list (original order preserved); a
city absent from the table yields the empty list rather than an error. -/
theorem vendor_lookup_spec (selected_city service_type : String) :
    (∀ v, v ∈ vendorLookup selected_city service_type ↔
        v ∈ (assocLookup VENDORS selected_city).getD []
        ∧ (service_type = "All" ∨ v.speciality = service_type))
    ∧ (vendorLookup selected_city service_type).Sublist
        ((assocLookup VENDORS selected_city).getD [])
    ∧ (selected_city ∉ VENDORS.map Prod.fst →
        vendorLookup selected_city service_type = []) := by
  refine ⟨?_, List.filter_sublist _, ?_⟩
  · intro v
    rw [vendorLookup, List.mem_filter, decide_eq_true_eq]
  · intro h
    rw [vendorLookup, assocLookup_eq_none _ _ h]
    rfl

/-- Witness for C9: the city "Enugu" has no registered vendors and yields the
empty list. -/
theorem vendor_lookup_spec_witness :
    ("Enugu" ∉ VENDORS.map Prod.fst) ∧ vendorLookup ("Enugu") ("All") = [] :=
  ⟨by decide, (vendor_lookup_spec ("Enugu") ("All")).2.2 (by decide)⟩

/-- C10: for every location string the irradiance used by the sizing
calculator comes from the fixed city table — whose values all lie between 4.2
and 6.0 — or is the default 5.0; it is therefore always strictly positive and
the `required_kwp` division can never be a division by zero. -/
theorem irradiance_always_positive :
    ∀ location : String,
      (getIrradiance location ∈ NIGERIAN_CITIES.map Prod.snd ∨
        getIrradiance location = 5)
      ∧ (∀ v ∈ NIGERIAN_CITIES.map Prod.snd, (4.2 : ℚ) ≤ v ∧ v ≤ 6.0)
      ∧ 0 < getIrradiance location
      ∧ ∀ daily_kwh autonomy_days : ℚ,
          calculate_solar_system_checked daily_kwh location autonomy_days =
            Except.ok
              (calculate_solar_system daily_kwh location autonomy_days) :=
  fun location =>
    ⟨getIrradiance_cases location, city_irradiance_bounds,
     getIrradiance_pos location,
     fun daily_kwh autonomy_days =>
       calculate_solar_system_checked_ok daily_kwh location autonomy_days⟩

/-- C5: every scenario row produced by the optimizer carries the fixed linear
cost estimate — panel required_kwp×300000, inverter required_kwp×200000,
battery battery_kwh×150000, installation 0.3×panel cost, total their sum —
and is marked within budget exactly when that total is ≤ max_budget. -/
theorem scenario_cost_formula (app : ApplianceMap) (max_budget : ℚ)
    (scenario_name : String) (priorities : List String) (row : ScenarioRow)
    (h : evalScenario app max_budget scenario_name priorities = some row) :
    row.estCost = scenarioRequiredKwp app priorities * 300000
        + scenarioRequiredKwp app priorities * 200000
        + scenarioBatteryKwh app priorities * 150000
        + 0.3 * (scenarioRequiredKwp app priorities * 300000)
    ∧ (row.withinBudget = true ↔ row.estCost ≤ max_budget) := by
  simp only [evalScenario] at h
  by_cases hs : scenarioFilter app priorities = []
  · rw [if_pos hs] at h
    exact absurd h (by simp)
  · rw [if_neg hs] at h
    have hrow := Option.some.inj h
    rw [← hrow]
    simp only [scenarioRequiredKwp, scenarioBatteryKwh, scenarioDailyKwh]
    constructor
    · ring
    · simp [decide_eq_true_eq]

/-- Witness for C5: a one-appliance working set evaluated in the first
scenario. -/
theorem scenario_cost_formula_witness :
    evalScenario [(("Fan"), ⟨100, 10, 1, ("High")⟩)] 2000000
        ("Essential Only (High Priority)") ["High"] =
      some ⟨("Essential Only (High Priority)"), 1, 13 / 50,
        40 / 153 * 590000 + 300000, true, 3000⟩
    ∧ ((⟨("Essential Only (High Priority)"), 1, 13 / 50,
        40 / 153 * 590000 + 300000, true, 3000⟩ : ScenarioRow).withinBudget =
          true ↔
        (⟨("Essential Only (High Priority)"), 1, 13 / 50,
          40 / 153 * 590000 + 300000, true, 3000⟩ : ScenarioRow).estCost ≤
          2000000) := by
  have h : evalScenario [(("Fan"), ⟨100, 10, 1, ("High")⟩)] 2000000
      ("Essential Only (High Priority)") ["High"] =
      some ⟨("Essential Only (High Priority)"), 1, 13 / 50,
        40 / 153 * 590000 + 300000, true, 3000⟩ := by
    rw [evalScenario, show scenarioFilter [(("Fan"), ⟨100, 10, 1, ("High")⟩)]
        ["High"] = [(("Fan"), ⟨100, 10, 1, ("High")⟩)] from by decide]
    norm_num [calculate_daily_consumption, cdcStep, calculate_solar_system,
      getIrradiance, assocLookup, NIGERIAN_CITIES, round2, pyRoundHalfEven]
  exact ⟨h, (scenario_cost_formula _ 2000000 _ ["High"] _ h).2⟩

/-- C7: for a working set with non-negative power, hours and quantity, the
three optimizer scenarios are monotone in daily energy:
Essential Only ≤ Essential + Important ≤ All Appliances. -/
theorem scenario_kwh_monotone (app : ApplianceMap)
    (hnn : ∀ e ∈ app, 0 ≤ e.2.power ∧ 0 ≤ e.2.hours ∧ 0 ≤ e.2.quantity) :
    scenarioDailyKwh app ["High"] ≤ scenarioDailyKwh app ["High", "Medium"]
    ∧ scenarioDailyKwh app ["High", "Medium"] ≤
        scenarioDailyKwh app ["High", "Medium", "Low"] := by
  have hterm : ∀ e ∈ app, 0 ≤ e.2.power * e.2.quantity * e.2.hours / 1000 := by
    intro e he
    obtain ⟨hp, hh, hq⟩ := hnn e he
    have : (0 : ℚ) ≤ e.2.power * e.2.quantity * e.2.hours :=
      mul_nonneg (mul_nonneg hp hq) hh
    positivity
  have key : ∀ ps qs : List String, (∀ s, s ∈ ps → s ∈ qs) →
      scenarioDailyKwh app ps ≤ scenarioDailyKwh app qs := by
    intro ps qs hsub
    rw [scenarioDailyKwh, scenarioDailyKwh, cdc_eq_sums, cdc_eq_sums]
    simp only [activeEntries, scenarioFilter, List.filter_filter]
    apply kwhSum_filter_mono _ _ _ _ hterm
    intro e he
    simp only [Bool.and_eq_true, decide_eq_true_eq] at he ⊢
    have := hsub e.2.priority
    tauto
  refine ⟨key _ _ ?_, key _ _ ?_⟩ <;> · intro s hs; simp at hs ⊢; tauto

/-- Witness for C7 on a one-appliance working set. -/
theorem scenario_kwh_monotone_witness :
    (∀ e ∈ ([(("Fan"), ⟨100, 10, 1, ("High")⟩)] : ApplianceMap),
      0 ≤ e.2.power ∧ 0 ≤ e.2.hours ∧ 0 ≤ e.2.quantity)
    ∧ scenarioDailyKwh [(("Fan"), ⟨100, 10, 1, ("High")⟩)] ["High"] ≤
        scenarioDailyKwh [(("Fan"), ⟨100, 10, 1, ("High")⟩)]
          ["High", "Medium"] :=
  ⟨by decide, (scenario_kwh_monotone _ (by decide)).1⟩

/-- C6: whenever at least one scenario fits the budget, the optimizer's
recommended configuration is itself a fitting scenario and its daily kWh is
maximal among all fitting scenarios. -/
theorem best_scenario_max (app : ApplianceMap) (max_budget : ℚ)
    (h : affordableScenarios (buildResults app max_budget) ≠ []) :
    ∃ best, bestScenario app max_budget = some best
      ∧ best ∈ affordableScenarios (buildResults app max_budget)
      ∧ best ∈ buildResults app max_budget
      ∧ best.withinBudget = true
      ∧ ∀ r ∈ affordableScenarios (buildResults app max_budget),
          r.dailyKwh ≤ best.dailyKwh := by
  obtain ⟨x, t, hxt⟩ := List.exists_cons_of_ne_nil h
  obtain ⟨hmem, hx, hall⟩ :=
    pyMax_foldl_spec (fun r : ScenarioRow => r.dailyKwh) t x
  set b := t.foldl
    (fun acc y =>
      if (fun r : ScenarioRow => r.dailyKwh) acc <
          (fun r : ScenarioRow => r.dailyKwh) y then y else acc) x with hb
  have hbs : bestScenario app max_budget = some b := by
    rw [bestScenario, hxt]
    rfl
  have hbaff : b ∈ affordableScenarios (buildResults app max_budget) := by
    rw [hxt]
    rcases hmem with hc | hc
    · rw [hc]; exact List.mem_cons_self x t
    · exact List.mem_cons_of_mem x hc
  have hbres := List.mem_filter.mp (by rwa [affordableScenarios] at hbaff)
  refine ⟨b, hbs, hbaff, hbres.1, hbres.2, ?_⟩
  intro r hr
  rw [hxt] at hr
  rcases List.mem_cons.mp hr with hc | hc
  · rw [hc]; exact hx
  · exact hall r hc

/-- Witness for C6: with one always-on appliance and a generous budget all
three scenarios fit, and the recommendation exists. -/
theorem best_scenario_max_witness :
    (affordableScenarios
        (buildResults [(("Fan"), ⟨100, 10, 1, ("High")⟩)] 2000000) ≠ [])
    ∧ ∃ best,
        bestScenario [(("Fan"), ⟨100, 10, 1, ("High")⟩)] 2000000 = some best
        ∧ best ∈ affordableScenarios
            (buildResults [(("Fan"), ⟨100, 10, 1, ("High")⟩)] 2000000)
        ∧ best ∈ buildResults [(("Fan"), ⟨100, 10, 1, ("High")⟩)] 2000000
        ∧ best.withinBudget = true
        ∧ ∀ r ∈ affordableScenarios
            (buildResults [(("Fan"), ⟨100, 10, 1, ("High")⟩)] 2000000),
            r.dailyKwh ≤ best.dailyKwh := by
  have h1 : evalScenario [(("Fan"), ⟨100, 10, 1, ("High")⟩)] 2000000
      ("Essential Only (High Priority)") ["High"] =
      some ⟨("Essential Only (High Priority)"), 1, 13 / 50,
        40 / 153 * 590000 + 300000, true, 3000⟩ := by
    rw [evalScenario, show scenarioFilter [(("Fan"), ⟨100, 10, 1, ("High")⟩)]
        ["High"] = [(("Fan"), ⟨100, 10, 1, ("High")⟩)] from by decide]
    norm_num [calculate_daily_consumption, cdcStep, calculate_solar_system,
      getIrradiance, assocLookup, NIGERIAN_CITIES, round2, pyRoundHalfEven]
  have h2 : evalScenario [(("Fan"), ⟨100, 10, 1, ("High")⟩)] 2000000
      ("Essential + Important (High + Medium)") ["High", "Medium"] =
      some ⟨("Essential + Important (High + Medium)"), 1, 13 / 50,
        40 / 153 * 590000 + 300000, true, 3000⟩ := by
    rw [evalScenario, show scenarioFilter [(("Fan"), ⟨100, 10, 1, ("High")⟩)]
        ["High", "Medium"] = [(("Fan"), ⟨100, 10, 1, ("High")⟩)] from by decide]
    norm_num [calculate_daily_consumption, cdcStep, calculate_solar_system,
      getIrradiance, assocLookup, NIGERIAN_CITIES, round2, pyRoundHalfEven]
  have h3 : evalScenario [(("Fan"), ⟨100, 10, 1, ("High")⟩)] 2000000
      ("All Appliances") ["High", "Medium", "Low"] =
      some ⟨("All Appliances"), 1, 13 / 50,
        40 / 153 * 590000 + 300000, true, 3000⟩ := by
    rw [evalScenario, show scenarioFilter [(("Fan"), ⟨100, 10, 1, ("High")⟩)]
        ["High", "Medium", "Low"] = [(("Fan"), ⟨100, 10, 1, ("High")⟩)]
      from by decide]
    norm_num [calculate_daily_consumption, cdcStep, calculate_solar_system,
      getIrradiance, assocLookup, NIGERIAN_CITIES, round2, pyRoundHalfEven]
  have heval : buildResults [(("Fan"), ⟨100, 10, 1, ("High")⟩)] 2000000 =
      [⟨("Essential Only (High Priority)"), 1, 13 / 50,
          40 / 153 * 590000 + 300000, true, 3000⟩,
       ⟨("Essential + Important (High + Medium)"), 1, 13 / 50,
          40 / 153 * 590000 + 300000, true, 3000⟩,
       ⟨("All Appliances"), 1, 13 / 50,
          40 / 153 * 590000 + 300000, true, 3000⟩] := by
    rw [buildResults, scenarioDefs]
    simp [List.filterMap_cons, h1, h2, h3]
  have h : affordableScenarios
      (buildResults [(("Fan"), ⟨100, 10, 1, ("High")⟩)] 2000000) ≠ [] := by
    rw [heval]
    simp [affordableScenarios]
  exact ⟨h, best_scenario_max _ 2000000 h⟩

end SolarApp
